import Mathlib

/-!
Verification development for the cashflow-universal core (src/main.py).

The Python source is shallowly embedded: Python floats are modelled as exact
rationals (ℚ), Python strings as `String`/`List Char`, `datetime.date` values
as a `Date` structure with civil-calendar day arithmetic, and the in-place
mutation of per-tenant transaction/group collections as explicit state passing
(functions return the updated collections).  `datetime.now()` is passed in as
an explicit `today` parameter.  Regular expressions that occur in the source
are embedded as dedicated character-level matching functions that replicate
the semantics (including greedy matching with backtracking) of the concrete
patterns used, and `float(...)` is embedded as a parser for the plain decimal
forms (optional sign, digits, one optional decimal point, surrounding
whitespace) that bank-statement fields take.
-/

namespace Cashflow

/- The kernel evaluates rational arithmetic directly; these core operations
are only `irreducible` for elaborator performance, and concrete evaluations
below (`decide`) need them unfolded. -/
attribute [local semireducible] Rat.add Rat.mul Rat.inv Rat.sub Rat.ofScientific

/-! ### Character and string utilities -/

/-- Python's `\s` class (and `str.strip` set) restricted to the characters a
statement line can contain: space, tab, CR, LF, vertical tab, form feed. -/
def isWsChar (c : Char) : Bool :=
  c = ' ' || c = '\t' || c = '\n' || c = '\r' || c = '\x0b' || c = '\x0c'

/-- `str.strip()`: drop whitespace from both ends. -/
def pyStrip (cs : List Char) : List Char :=
  ((cs.dropWhile isWsChar).reverse.dropWhile isWsChar).reverse

/-- ASCII upper-casing of one character, as `str.upper()` acts on the ASCII
range that statement text uses. -/
def upChar (c : Char) : Char :=
  if 'a' ≤ c ∧ c ≤ 'z' then Char.ofNat (c.toNat - 32) else c

/-- `str.upper()` over the character list. -/
def pyUpper (cs : List Char) : List Char := cs.map upChar

/-- `str.split('\n')`. -/
def splitNl : List Char → List (List Char)
  | [] => [[]]
  | c :: rest =>
    if c = '\n' then [] :: splitNl rest
    else
      match splitNl rest with
      | [] => [[c]]
      | l :: ls => (c :: l) :: ls

/-- Substring test: is `needle` a contiguous infix of `hay`?  This is
`re.search` for the literal keywords of the categorizer patterns and the
`'JAN' in line.upper()` tests. -/
def containsSub (needle hay : List Char) : Bool :=
  hay.tails.any (fun t => needle.isPrefixOf t)

/-- `'/' in line` style membership test. -/
def containsChar (c : Char) (hay : List Char) : Bool := hay.any (· = c)

/-- Accumulator pass of decimal-digit evaluation. -/
def digitsToNat : List Char → Nat → Nat
  | [], acc => acc
  | c :: t, acc => digitsToNat t (acc * 10 + (c.toNat - '0'.toNat))

/-- `int(s)` on a regex group: succeeds exactly on a non-empty all-digit
string (the date-pattern groups are either all digits or all letters; on
letters `int` raises and the source swallows the exception). -/
def pyInt? (cs : List Char) : Option Nat :=
  if cs ≠ [] ∧ cs.all Char.isDigit then some (digitsToNat cs 0) else none

/-- `re.sub(r'[$,]', '', part)`: drop every dollar sign and comma. -/
def stripDollarComma (cs : List Char) : List Char :=
  cs.filter (fun c => ¬ (c = '$' ∨ c = ','))

/-- Numeral part of `float(s)`: digits, at most one decimal point, at least
one digit overall, nothing else. -/
def pyFloatDigits? (cs : List Char) : Option ℚ :=
  let intPart := cs.takeWhile Char.isDigit
  let rest := cs.drop intPart.length
  match rest with
  | [] => if intPart = [] then none else some (digitsToNat intPart 0)
  | '.' :: frac =>
    if frac.all Char.isDigit ∧ (intPart ≠ [] ∨ frac ≠ []) then
      some ((digitsToNat intPart 0 : ℚ) +
        (digitsToNat frac 0 : ℚ) / (10 : ℚ) ^ frac.length)
    else none
  | _ => none

/-- `float(s)`: strip whitespace, optional sign, then a plain decimal numeral
(the only numeric form bank-statement fields take; exponent/inf/nan forms do
not occur in this data).  Returns `none` where `float` raises `ValueError`. -/
def pyFloat? (cs : List Char) : Option ℚ :=
  match pyStrip cs with
  | '+' :: t => pyFloatDigits? t
  | '-' :: t => (pyFloatDigits? t).map (fun q => -q)
  | t => pyFloatDigits? t

/-! ### Calendar dates

`datetime` values in the source are always midnight dates; we model them as
civil dates and do day arithmetic through the standard civil-from-days /
days-from-civil correspondence. -/

/-- A civil calendar date (`datetime.date`). -/
structure Date where
  year : Nat
  month : Nat
  day : Nat
deriving DecidableEq, Repr

/-- Days elapsed since 0000-03-01 (Hinnant's days-from-civil, shifted to stay
in ℕ; all dates the program handles are AD).  Differences of `toDays` values
are exactly Python's `(d2 - d1).days`. -/
def Date.toDays (d : Date) : Nat :=
  let y := if d.month ≤ 2 then d.year - 1 else d.year
  let era := y / 400
  let yoe := y % 400
  let mp := (d.month + 9) % 12
  let doy := (153 * mp + 2) / 5 + d.day - 1
  let doe := yoe * 365 + yoe / 4 - yoe / 100 + doy
  era * 146097 + doe

/-- Inverse of `Date.toDays` (Hinnant's civil-from-days). -/
def dateFromDays (z : Nat) : Date :=
  let era := z / 146097
  let doe := z % 146097
  let yoe := (doe - doe / 1460 + doe / 36524 - doe / 146096) / 365
  let y := yoe + era * 400
  let doy := doe - (365 * yoe + yoe / 4 - yoe / 100)
  let mp := (5 * doy + 2) / 153
  let d := doy - (153 * mp + 2) / 5 + 1
  let m := if mp < 10 then mp + 3 else mp - 9
  if m ≤ 2 then ⟨y + 1, m, d⟩ else ⟨y, m, d⟩

/-- `date.weekday()`: Monday = 0 … Sunday = 6.  0000-03-01 (day 0) was a
Wednesday. -/
def pyWeekday (z : Nat) : Nat := (z + 2) % 7

/-- `date.strftime("%A")`. -/
def dayName (z : Nat) : String :=
  match pyWeekday z with
  | 0 => "Monday"
  | 1 => "Tuesday"
  | 2 => "Wednesday"
  | 3 => "Thursday"
  | 4 => "Friday"
  | 5 => "Saturday"
  | _ => "Sunday"

/-- Gregorian leap-year rule used by `datetime`. -/
def isLeapYear (y : Nat) : Bool :=
  (y % 4 = 0 && y % 100 ≠ 0) || y % 400 = 0

/-- Length of a month, as `datetime` validates day-of-month. -/
def daysInMonth (y m : Nat) : Nat :=
  if m = 2 then (if isLeapYear y then 29 else 28)
  else if m = 4 ∨ m = 6 ∨ m = 9 ∨ m = 11 then 30
  else 31

/-- `datetime(year, month, day)` / `strptime` validation: `some` exactly when
the constructor succeeds, `none` where it raises `ValueError`. -/
def mkDate? (y m d : Nat) : Option Date :=
  if 1 ≤ y ∧ y ≤ 9999 ∧ 1 ≤ m ∧ m ≤ 12 ∧ 1 ≤ d ∧ d ≤ daysInMonth y m then
    some ⟨y, m, d⟩
  else none

/-! ### Python `round` on exact rationals -/

/-- Round-half-to-even to an integer, the rounding `round()` applies. -/
def roundHalfEven (q : ℚ) : ℤ :=
  let n := ⌊q⌋
  let f := q - n
  if f < 1/2 then n else if 1/2 < f then n + 1 else if n % 2 = 0 then n else n + 1

/-- `round(q, 2)` (two decimal places). -/
def pyRound2 (q : ℚ) : ℚ := (roundHalfEven (q * 100) : ℚ) / 100

/-- `round(q, -1)` (nearest multiple of ten). -/
def pyRound10 (q : ℚ) : ℚ := 10 * (roundHalfEven (q / 10) : ℚ)

/-! ### Data model -/

/-- A transaction record as built by `parse_bank_data` (src/main.py 208-216).
The `date` field holds the calendar date whose ISO string the source stores. -/
structure Transaction where
  id : Nat
  date : Date
  description : String
  amount : ℚ
  type : String
  group_id : Option String
  category_id : String
deriving DecidableEq, Repr

/-- A transaction group (src/main.py 280-289 and 386-395). -/
structure Group where
  id : String
  name : String
  category_id : String
  frequency : String
  avg_amount : ℚ
  transaction_count : Int
  transaction_ids : List Nat
  confirmed : Bool
deriving DecidableEq, Repr

/-- One row of `DEFAULT_CATEGORIES` (src/main.py 23-42). -/
structure Category where
  id : String
  name : String
  icon : String
  frequency : String
deriving DecidableEq, Repr

/-- `DEFAULT_CATEGORIES` (src/main.py 23-42). -/
def DEFAULT_CATEGORIES : List Category :=
  [⟨"payroll", "Payroll", "💰", "semi-monthly"⟩,
   ⟨"payroll_tax", "Payroll Taxes & Benefits", "🏛️", "semi-monthly"⟩,
   ⟨"rent", "Rent", "🏢", "monthly"⟩,
   ⟨"utilities", "Utilities (Phone, Internet, Electric)", "💡", "monthly"⟩,
   ⟨"insurance", "Insurance", "🛡️", "monthly"⟩,
   ⟨"credit_card", "Credit Card Payments", "💳", "monthly"⟩,
   ⟨"loan", "Loan Payments", "🏦", "monthly"⟩,
   ⟨"cogs", "Inventory / Cost of Goods", "📦", "varies"⟩,
   ⟨"sales_revenue", "Sales Revenue", "💵", "daily"⟩,
   ⟨"other_revenue", "Other Revenue", "📈", "varies"⟩,
   ⟨"distributions", "Owner Distributions", "👤", "uncommon"⟩,
   ⟨"taxes", "Taxes", "📋", "quarterly"⟩,
   ⟨"legal_accounting", "Legal & Accounting", "⚖️", "monthly"⟩,
   ⟨"marketing", "Marketing & Advertising", "📣", "varies"⟩,
   ⟨"subscriptions", "Software & Subscriptions", "💻", "monthly"⟩,
   ⟨"daily_ops", "Daily Operations", "🔧", "daily"⟩,
   ⟨"refunds", "Refunds", "↩️", "daily"⟩,
   ⟨"unassigned", "Unassigned", "❓", "unknown"⟩]

/-- One row of `FREQUENCY_OPTIONS` (src/main.py 44-52). -/
structure FrequencyOption where
  id : String
  name : String
  multiplier : ℚ
deriving DecidableEq, Repr

/-- `FREQUENCY_OPTIONS` (src/main.py 44-52). -/
def FREQUENCY_OPTIONS : List FrequencyOption :=
  [⟨"daily", "Daily (most business days)", 22⟩,
   ⟨"weekly", "Weekly", 4.33⟩,
   ⟨"semi-monthly", "Twice per Month", 2⟩,
   ⟨"monthly", "Monthly", 1⟩,
   ⟨"quarterly", "Quarterly", 0.33⟩,
   ⟨"uncommon", "Uncommon / One-time", 0⟩,
   ⟨"varies", "Varies", 1⟩]

/-! ### StatementParser: field splitting -/

/-- Scanner state for the field splitter: building a field, inside a `\\t+`
separator run, or inside a `\\s{2,}` separator run. -/
inductive SFState where
  | field (cur : List Char)
  | tabs
  | ws
deriving DecidableEq, Repr

/-- `re.split(r'\\t+|\\s{2,}', line)` (src/main.py 183) as a left-to-right
scan.  At each position the alternation first tries a run of tabs, then a run
of at least two whitespace characters (which may mix spaces and tabs); a
single non-tab whitespace character stays inside the current field.  `cur`
holds the current field reversed. -/
def splitFieldsGo : List Char → SFState → List (List Char)
  | [], .field cur => [cur.reverse]
  | [], .tabs => [[]]
  | [], .ws => [[]]
  | c :: rest, st =>
    match st with
    | .field cur =>
      if c = '\t' then cur.reverse :: splitFieldsGo rest .tabs
      else if isWsChar c then
        if 1 ≤ (rest.takeWhile isWsChar).length then
          cur.reverse :: splitFieldsGo rest .ws
        else splitFieldsGo rest (.field (c :: cur))
      else splitFieldsGo rest (.field (c :: cur))
    | .tabs =>
      if c = '\t' then splitFieldsGo rest .tabs
      else if isWsChar c then
        if 1 ≤ (rest.takeWhile isWsChar).length then [] :: splitFieldsGo rest .ws
        else splitFieldsGo rest (.field [c])
      else splitFieldsGo rest (.field [c])
    | .ws =>
      if isWsChar c then splitFieldsGo rest .ws
      else splitFieldsGo rest (.field [c])

/-- The parts of a candidate transaction line. -/
def splitFields (cs : List Char) : List (List Char) := splitFieldsGo cs (.field [])

/-! ### StatementParser: date-header patterns (src/main.py 144-148) -/

/-- The `,?\s*(\d{4})` tail of date pattern (a): optional comma, any
whitespace, then four digits (the year group). -/
def matchCommaWsYear (cs : List Char) : Option (List Char) :=
  let cs1 := match cs with
    | ',' :: t => t
    | t => t
  let cs2 := cs1.dropWhile isWsChar
  let y := cs2.take 4
  if y.length = 4 ∧ y.all Char.isDigit then some y else none

/-- `^([A-Z]{3})\s+(\d{1,2}),?\s*(\d{4})` with `re.IGNORECASE` (date pattern
(a), e.g. "JAN 13, 2026").  The greedy day group tries two digits first and
backtracks to one. -/
def matchMonthNamePat (cs : List Char) : Option (List Char × List Char × List Char) :=
  match cs with
  | a :: b :: c :: rest =>
    if a.isAlpha ∧ b.isAlpha ∧ c.isAlpha ∧ 1 ≤ (rest.takeWhile isWsChar).length then
      match rest.dropWhile isWsChar with
      | d1 :: d2 :: r3 =>
        if d1.isDigit ∧ d2.isDigit then
          match matchCommaWsYear r3 with
          | some y => some ([a, b, c], [d1, d2], y)
          | none =>
            match matchCommaWsYear (d2 :: r3) with
            | some y => some ([a, b, c], [d1], y)
            | none => none
        else if d1.isDigit then
          (matchCommaWsYear (d2 :: r3)).map (fun y => ([a, b, c], [d1], y))
        else none
      | [d1] =>
        if d1.isDigit then (matchCommaWsYear []).map (fun y => ([a, b, c], [d1], y))
        else none
      | [] => none
    else none
  | _ => none

/-- `(\d{1,2})/` with greedy backtracking: the group and the rest after
the slash. -/
def matchDigits12Slash (cs : List Char) : Option (List Char × List Char) :=
  match cs with
  | d1 :: d2 :: rest =>
    if d1.isDigit then
      if d2.isDigit then
        match rest with
        | '/' :: r => some ([d1, d2], r)
        | _ => none
      else if d2 = '/' then some ([d1], rest)
      else none
    else none
  | _ => none

/-- `^(\d{1,2})/(\d{1,2})/(\d{4})` (date pattern (b), e.g. "01/13/2026"). -/
def matchSlashPat (cs : List Char) : Option (List Char × List Char × List Char) :=
  match matchDigits12Slash cs with
  | none => none
  | some (g1, r1) =>
    match matchDigits12Slash r1 with
    | none => none
    | some (g2, r2) =>
      let y := r2.take 4
      if y.length = 4 ∧ y.all Char.isDigit then some (g1, g2, y) else none

/-- `^(\d{4})-(\d{2})-(\d{2})` (date pattern (c), e.g. "2026-01-13"). -/
def matchIsoPat (cs : List Char) : Option (List Char × List Char × List Char) :=
  match cs with
  | y1 :: y2 :: y3 :: y4 :: '-' :: m1 :: m2 :: '-' :: d1 :: d2 :: _ =>
    if [y1, y2, y3, y4, m1, m2, d1, d2].all Char.isDigit then
      some ([y1, y2, y3, y4], [m1, m2], [d1, d2])
    else none
  | _ => none

/-- The date patterns tried in fixed order (src/main.py 156-161). -/
def tryDatePatterns (cs : List Char) : Option (List Char × List Char × List Char) :=
  match matchMonthNamePat cs with
  | some g => some g
  | none =>
    match matchSlashPat cs with
    | some g => some g
    | none => matchIsoPat cs

/-- The `months` dictionary (src/main.py 171-172). -/
def monthsTable : List (List Char × Nat) :=
  [("JAN".data, 1), ("FEB".data, 2), ("MAR".data, 3), ("APR".data, 4),
   ("MAY".data, 5), ("JUN".data, 6), ("JUL".data, 7), ("AUG".data, 8),
   ("SEP".data, 9), ("OCT".data, 10), ("NOV".data, 11), ("DEC".data, 12)]

/-- `months.get(month_name, 1)`. -/
def monthsLookup (s : List Char) : Nat := (List.lookup s monthsTable).getD 1

/-- The date-header branch of `parse_bank_data` (src/main.py 163-180): which
month-format parse runs depends on whether the line contains "JAN"/"FEB" and
on whether it contains a slash; `none` means the parse raised and
`except: pass` kept the previous date context. -/
def parseDateHeader (line : List Char) (g : List Char × List Char × List Char) :
    Option Date :=
  let up := pyUpper line
  if containsSub "JAN".data up ∨ containsSub "FEB".data up then
    match pyInt? g.2.1, pyInt? g.2.2 with
    | some day, some year => mkDate? year (monthsLookup (pyUpper g.1)) day
    | _, _ => none
  else if containsChar '/' line then
    match pyInt? g.1, pyInt? g.2.1, pyInt? g.2.2 with
    | some m, some d, some y => mkDate? y m d
    | _, _, _ => none
  else
    match pyInt? g.1, pyInt? g.2.1, pyInt? g.2.2 with
    | some y, some m, some d => mkDate? y m d
    | _, _, _ => none

/-! ### StatementParser: transaction lines and the main loop -/

/-- The transaction-line branch of `parse_bank_data` (src/main.py 182-216):
split into fields, require at least three, pick the description, collect the
numeric fields, and apply the one-column / two-column amount convention. -/
def parseTxnLine (today : Date) (current : Option Date) (nTxns : Nat)
    (line : List Char) : Option Transaction :=
  let parts := splitFields line
  if 3 ≤ parts.length then
    let p0 := parts.getD 0 []
    let description := if 5 < p0.length then p0 else parts.getD 1 p0
    let amounts := parts.filterMap (fun p => pyFloat? (stripDollarComma p))
    match amounts with
    | [] => none
    | a0 :: restA =>
      let amount :=
        match restA with
        | [] => a0
        | a1 :: _ =>
          let debit := if 0 < a0 then a0 else 0
          let credit := if 0 < a1 then a1 else 0
          if credit ≠ 0 then credit - debit else -debit
      some { id := nTxns + 1, date := current.getD today,
             description := String.mk (pyStrip description),
             amount := amount,
             type := if 0 < amount then "credit" else "debit",
             group_id := none, category_id := "unassigned" }
  else none

/-- One iteration of the parser's line loop (src/main.py 150-218), acting on
the state (current date context, transactions so far). -/
def processLine (today : Date) (st : Option Date × List Transaction)
    (rawLine : List Char) : Option Date × List Transaction :=
  let line := pyStrip rawLine
  if line = [] then st
  else
    match tryDatePatterns line with
    | some g =>
      (match parseDateHeader line g with
       | some d => some d
       | none => st.1, st.2)
    | none =>
      match parseTxnLine today st.1 st.2.length line with
      | some t => (st.1, st.2 ++ [t])
      | none => st

/-- Result of `parse_bank_data` (src/main.py 220-225). -/
structure ParseOut where
  transactions : List Transaction
  start_date : Option Date
  end_date : Option Date
deriving DecidableEq, Repr

/-- `min(dates)` over the stored ISO date strings; for the dates this program
builds, string order is chronological order, i.e. the `toDays` order. -/
def minimumDate? : List Date → Option Date
  | [] => none
  | d :: t => some (t.foldl (fun a b => if b.toDays < a.toDays then b else a) d)

/-- `max(dates)`, as for `minimumDate?`. -/
def maximumDate? : List Date → Option Date
  | [] => none
  | d :: t => some (t.foldl (fun a b => if a.toDays < b.toDays then b else a) d)

/-- `parse_bank_data` (src/main.py 136-225), with `datetime.now()` passed as
`today`. -/
def parse_bank_data (today : Date) (raw : String) : ParseOut :=
  let lines := splitNl (pyStrip raw.data)
  let st := lines.foldl (processLine today) (none, [])
  { transactions := st.2,
    start_date := minimumDate? (st.2.map (·.date)),
    end_date := maximumDate? (st.2.map (·.date)) }


/-! ### FrequencyDetector (src/main.py 298-320) -/

/-- Ascending insertion into a sorted list (used to model `sorted(dates)`;
for day numbers any correct ascending sort yields the same list). -/
def insertSorted (x : Nat) : List Nat → List Nat
  | [] => [x]
  | y :: t => if x ≤ y then x :: y :: t else y :: insertSorted x t

/-- `sorted` on day numbers. -/
def sortNats (l : List Nat) : List Nat := l.foldr insertSorted []

/-- The day gaps between consecutive sorted dates
(`(dates[i+1] - dates[i]).days`). -/
def consecutiveGaps : List Nat → List Int
  | a :: b :: t => ((b : Int) - (a : Int)) :: consecutiveGaps (b :: t)
  | _ => []

/-- `avg_gap` of `detect_frequency` (src/main.py 303-307): mean of the
consecutive gaps of the sorted dates, `30` when there are no gaps. -/
def avg_gap (txns : List Transaction) : ℚ :=
  let gaps := consecutiveGaps (sortNats (txns.map (fun t => t.date.toDays)))
  if gaps.isEmpty then 30 else ((gaps.map (fun g => (g : ℚ))).sum) / gaps.length

/-- The threshold chain of `detect_frequency` (src/main.py 309-320). -/
def freqBucket (a : ℚ) : String :=
  if a ≤ 2 then "daily"
  else if a ≤ 8 then "weekly"
  else if a ≤ 17 then "semi-monthly"
  else if a ≤ 35 then "monthly"
  else if a ≤ 100 then "quarterly"
  else "uncommon"

/-- `detect_frequency` (src/main.py 298-320). -/
def detect_frequency (txns : List Transaction) : String :=
  if txns.length < 2 then "uncommon" else freqBucket (avg_gap txns)

/-! ### AutoCategorizer (src/main.py 227-296) -/

/-- The ordered rule list (src/main.py 237-253).  Every pattern in the source
is an alternation of literal keywords, so each rule is embedded as the list of
its keywords; `re.search` then holds iff some keyword is a substring of the
upper-cased description. -/
def rulePatterns : List (List String × String × String) :=
  [(["PAYROLL", "PAYCHEX", "ADP", "GUSTO"], "payroll", "Payroll"),
   (["401K", "RETIREMENT", "PENSION"], "payroll_tax", "Payroll Taxes & Benefits"),
   (["RENT", "LEASE"], "rent", "Rent"),
   (["ELECTRIC", "GAS", "WATER", "UTILITY", "PG&E", "EDISON"], "utilities", "Utilities"),
   (["INSURANCE", "GEICO", "STATE FARM", "BLUE CROSS", "BLUE SHIELD"], "insurance", "Insurance"),
   (["AMEX", "VISA", "MASTERCARD", "DISCOVER", "CHASE CARD"], "credit_card", "Credit Card"),
   (["LOAN", "MORTGAGE", "LENDING"], "loan", "Loan Payment"),
   (["AMAZON", "OFFICE DEPOT", "STAPLES", "SUPPLY"], "daily_ops", "Office & Supplies"),
   (["REFUND", "RETURN"], "refunds", "Refunds"),
   (["DEPOSIT", "MERCHANT", "STRIPE", "SQUARE", "AUTHORIZE"], "sales_revenue", "Sales Revenue"),
   (["TRANSFER", "WIRE", "ACH"], "other_revenue", "Bank Transfers"),
   (["TAX", "IRS", "FTB", "FRANCHISE"], "taxes", "Taxes"),
   (["ATTORNEY", "LAWYER", "CPA", "ACCOUNTANT"], "legal_accounting", "Legal & Accounting"),
   (["GOOGLE ADS", "FACEBOOK", "META", "MARKETING", "ADVERTIS"], "marketing", "Marketing"),
   (["QUICKBOOKS", "SLACK", "ZOOM", "ADOBE", "MICROSOFT", "SUBSCRIPTION"], "subscriptions", "Software")]

/-- First-match-wins rule lookup (src/main.py 255-262). -/
def matchRule (desc : List Char) : Option (String × String) :=
  rulePatterns.foldr
    (fun r acc =>
      if r.1.any (fun kw => containsSub kw.data desc) then some (r.2.1, r.2.2) else acc)
    none

/-- Bucket keys of `grouped_txns`.  The source uses the strings
`f"{cat_id}_{cat_name}"` and `f"amount_{rounded_amt}_{type}"`; over the fixed
rule table and float reprs, two keys are equal iff they agree as the pairs
below, so the key is embedded as a sum. -/
inductive BucketKey where
  | rule (cat_id cat_name : String)
  | amount (rounded : ℚ) (ty : String)
deriving DecidableEq, Repr

/-- Per-transaction categorization step (src/main.py 232-268): set
`category_id` on a rule match, and compute the transaction's bucket key. -/
def categorizeOne (txn : Transaction) : Transaction × BucketKey :=
  let desc := pyUpper txn.description.data
  match matchRule desc with
  | some (cid, cname) => ({ txn with category_id := cid }, .rule cid cname)
  | none => (txn, .amount (pyRound10 |txn.amount|) txn.type)

/-- `grouped_txns[key].append(txn)` over an insertion-ordered association
list (Python dicts preserve insertion order). -/
def insertBucket (bs : List (BucketKey × List Transaction)) (k : BucketKey)
    (t : Transaction) : List (BucketKey × List Transaction) :=
  match bs with
  | [] => [(k, [t])]
  | (k0, ts) :: rest =>
    if k0 = k then (k0, ts ++ [t]) :: rest else (k0, ts) :: insertBucket rest k t

/-- The buckets of a transaction list, in insertion order. -/
def bucketsOf (tagged : List (Transaction × BucketKey)) :
    List (BucketKey × List Transaction) :=
  tagged.foldl (fun bs p => insertBucket bs p.2 p.1) []

/-- Group materialization (src/main.py 271-295): buckets with at least two
members become groups, numbered in bucket order. -/
def mkGroups : List (BucketKey × List Transaction) → List Group → List Group
  | [], acc => acc
  | (_, ts) :: rest, acc =>
    if 2 ≤ ts.length then
      let cid := match ts with
        | t0 :: _ => t0.category_id
        | [] => "unassigned"
      let cname :=
        ((DEFAULT_CATEGORIES.find? (fun c => c.id == cid)).map (fun c => c.name)).getD
          "Unassigned"
      let g : Group :=
        { id := "grp_" ++ toString (acc.length + 1),
          name := if cid ≠ "unassigned" then cname
                  else "Group " ++ toString (acc.length + 1),
          category_id := cid,
          frequency := detect_frequency ts,
          avg_amount := ((ts.map (fun t => t.amount)).sum) / (ts.length : ℚ),
          transaction_count := (ts.length : Int),
          transaction_ids := ts.map (fun t => t.id),
          confirmed := false }
      mkGroups rest (acc ++ [g])
    else mkGroups rest acc

/-- The group id a bucket key ends up with, if its bucket was materialized:
walks the buckets counting created groups, mirroring the numbering of
`mkGroups`. -/
def groupIdOfKeyAux : List (BucketKey × List Transaction) → Nat → BucketKey →
    Option String
  | [], _, _ => none
  | (k0, ts) :: rest, n, k =>
    if 2 ≤ ts.length then
      if k0 = k then some ("grp_" ++ toString (n + 1))
      else groupIdOfKeyAux rest (n + 1) k
    else
      if k0 = k then none else groupIdOfKeyAux rest n k

/-- `auto_categorize_transactions` (src/main.py 227-296).  The source mutates
the transaction dicts in place (`category_id` on rule match, `group_id` when
the bucket becomes a group) and returns the group list; the embedding returns
the updated transactions together with the groups. -/
def auto_categorize_transactions (txns : List Transaction) :
    List Transaction × List Group :=
  let tagged := txns.map categorizeOne
  let buckets := bucketsOf tagged
  let grps := mkGroups buckets []
  let finalTxns := tagged.map (fun p =>
    match groupIdOfKeyAux buckets 0 p.2 with
    | some gid => { p.1 with group_id := some gid }
    | none => p.1)
  (finalTxns, grps)


/-! ### move_transactions (src/main.py 376-427) -/

/-- The request body of the move-transactions operation; absent JSON keys are
`none` (`data.get(...)`). -/
structure MoveRequest where
  transaction_ids : List Nat
  target_group_id : Option String
  new_group_name : Option String
  category_id : Option String
  frequency : Option String
deriving DecidableEq, Repr

/-- Python truthiness of an optional string (`if new_group_name:`). -/
def truthyStr : Option String → Bool
  | none => false
  | some s => s ≠ ""

/-- `list.remove(x)`: remove the first occurrence. -/
def removeFirstNat : List Nat → Nat → List Nat
  | [], _ => []
  | x :: t, v => if x = v then t else x :: removeFirstNat t v

/-- Mutate the first group with the given id (`next(g for g in groups ...)`
hands out a reference to the first match); an absent id changes nothing. -/
def updateFirstGroup (grps : List Group) (gid : String) (f : Group → Group) :
    List Group :=
  match grps with
  | [] => []
  | g :: rest =>
    if g.id = gid then f g :: rest else g :: updateFirstGroup rest gid f

/-- One iteration of the move loop (src/main.py 401-419) for a transaction
whose id is in the request: point it at the target, remove it from its old
group, append it to the target group when that group exists. -/
def moveOne (target : Option String) (st : List Transaction × List Group × Nat)
    (txn : Transaction) : List Transaction × List Group × Nat :=
  let old_group_id := txn.group_id
  let txn1 := { txn with group_id := target }
  let grps1 :=
    match old_group_id with
    | none => st.2.1
    | some oid =>
      updateFirstGroup st.2.1 oid (fun g =>
        if txn.id ∈ g.transaction_ids then
          { g with transaction_ids := removeFirstNat g.transaction_ids txn.id,
                   transaction_count := g.transaction_count - 1 }
        else g)
  let grps2 :=
    match target with
    | none => grps1
    | some tid =>
      updateFirstGroup grps1 tid (fun g =>
        { g with transaction_ids := g.transaction_ids ++ [txn.id],
                 transaction_count := g.transaction_count + 1 })
  (st.1 ++ [txn1], grps2, st.2.2 + 1)

/-- The move loop over all of the tenant's transactions (src/main.py
400-419). -/
def moveLoop (txns : List Transaction) (grps : List Group)
    (target : Option String) (ids : List Nat) :
    List Transaction × List Group × Nat :=
  txns.foldl
    (fun st txn =>
      if txn.id ∈ ids then moveOne target st txn
      else (st.1 ++ [txn], st.2.1, st.2.2))
    ([], grps, 0)

/-- `sum(amounts) / len(amounts)`; on the empty list this is ℚ-division by
zero (= 0), a value the source never computes because it guards with
`if grp_txns:`. -/
def meanAmounts (ts : List Transaction) : ℚ :=
  ((ts.map (fun t => t.amount)).sum) / (ts.length : ℚ)

/-- The average recalculation pass (src/main.py 421-425): a group with at
least one member (by `group_id` pointer) gets the exact mean; an empty group
is left untouched. -/
def recalcOne (txns : List Transaction) (g : Group) : Group :=
  if (txns.filter (fun t => t.group_id = some g.id)).isEmpty then g
  else
    { g with
      avg_amount := meanAmounts (txns.filter (fun t => t.group_id = some g.id)) }

/-- Recalculate every group's average (src/main.py 421-425). -/
def recalcGroups (txns : List Transaction) (grps : List Group) : List Group :=
  grps.map (recalcOne txns)

/-- Result of `move_transactions`; the endpoint returns
`{"success": True, "moved": n}` and its effect is the mutated tenant state. -/
structure MoveResult where
  transactions : List Transaction
  groups : List Group
  moved : Nat
deriving DecidableEq, Repr

/-- `move_transactions` (src/main.py 376-427) on one tenant's state. -/
def move_transactions (txns : List Transaction) (grps : List Group)
    (req : MoveRequest) : MoveResult :=
  let pre :=
    if truthyStr req.new_group_name then
      let ng : Group :=
        { id := "grp_" ++ toString (grps.length + 1),
          name := req.new_group_name.getD "",
          category_id := req.category_id.getD "unassigned",
          frequency := req.frequency.getD "varies",
          avg_amount := 0, transaction_count := 0, transaction_ids := [],
          confirmed := false }
      (grps ++ [ng], some ng.id)
    else (grps, req.target_group_id)
  let step := moveLoop txns pre.1 pre.2 req.transaction_ids
  { transactions := step.1,
    groups := recalcGroups step.1 step.2.1,
    moved := step.2.2 }

/-! ### ForecastEngine (src/main.py 433-518) -/

/-- One entry of a forecast row's `transactions` list (src/main.py
483-487). -/
structure FireEntry where
  name : String
  amount : ℚ
  ty : String
deriving DecidableEq, Repr

/-- One forecast row (src/main.py 491-498). -/
structure ForecastRow where
  date : Date
  day_name : String
  balance : ℚ
  credits : ℚ
  debits : ℚ
  transactions : List FireEntry
deriving DecidableEq, Repr

/-- The forecast summary (src/main.py 505-517). -/
structure ForecastSummary where
  current_balance : ℚ
  low_balance : ℚ
  low_date : Date
  high_balance : ℚ
  high_date : Date
deriving DecidableEq, Repr

/-- Outcome of the forecast endpoint: the "not ready" error dict (src/main.py
440), the uncaught `ValueError` that `min`/`max` of an empty row list raises
(src/main.py 502-503), or a normal forecast. -/
inductive ForecastOut where
  | notReady
  | valueErrorCrash
  | ok (rows : List ForecastRow) (summary : ForecastSummary)
deriving DecidableEq, Repr

/-- Which confirmed groups fire on day `z` (src/main.py 457-487), in group
order. -/
def dayFires (grps : List Group) (z : Nat) : List FireEntry :=
  grps.filterMap (fun g =>
    if g.confirmed then
      let cd := dateFromDays z
      let isWeekend := dayName z = "Saturday" ∨ dayName z = "Sunday"
      let should :=
        (g.frequency = "daily" ∧ ¬ isWeekend) ∨
        (g.frequency = "weekly" ∧ pyWeekday z = 0) ∨
        (g.frequency = "semi-monthly" ∧ (cd.day = 1 ∨ cd.day = 15)) ∨
        (g.frequency = "monthly" ∧ cd.day = 1) ∨
        (g.frequency = "quarterly" ∧ cd.day = 1 ∧
          (cd.month = 1 ∨ cd.month = 4 ∨ cd.month = 7 ∨ cd.month = 10))
      if should then
        some ⟨g.name, g.avg_amount, if 0 < g.avg_amount then "credit" else "debit"⟩
      else none
    else none)

/-- `daily_credits` of a day: firing amounts that are positive
(src/main.py 479-480). -/
def firesCredits (fs : List FireEntry) : ℚ :=
  ((fs.filter (fun e => 0 < e.amount)).map (fun e => e.amount)).sum

/-- `daily_debits` of a day: absolute values of firing amounts that are not
positive (src/main.py 481-482). -/
def firesDebits (fs : List FireEntry) : ℚ :=
  ((fs.filter (fun e => ¬ 0 < e.amount)).map (fun e => |e.amount|)).sum

/-- The day loop (src/main.py 448-498): `k` days remain, the current day is
`today + off`, and `bal` is the unrounded running balance. -/
def forecastRowsAux (grps : List Group) (today : Date) :
    Nat → Nat → ℚ → List ForecastRow
  | 0, _, _ => []
  | k + 1, off, bal =>
    let z := today.toDays + off
    let fires := dayFires grps z
    let credits := firesCredits fires
    let debits := firesDebits fires
    let bal1 := bal + credits - debits
    { date := dateFromDays z, day_name := dayName z,
      balance := pyRound2 bal1, credits := pyRound2 credits,
      debits := pyRound2 debits, transactions := fires } ::
      forecastRowsAux grps today k (off + 1) bal1

/-- All forecast rows for a horizon of `days` (`range(days)` is empty when
`days ≤ 0`). -/
def forecastRows (grps : List Group) (today : Date) (days : Int) (bal : ℚ) :
    List ForecastRow :=
  forecastRowsAux grps today days.toNat 0 bal

/-- First row carrying the given balance (`balances.index(...)` returns the
earliest index). -/
def firstRowWith : List ForecastRow → ℚ → Option ForecastRow
  | [], _ => none
  | r :: t, b => if r.balance = b then some r else firstRowWith t b

/-- `min` of the row balances (fold from the first element). -/
def minBalance (r0 : ForecastRow) (rows : List ForecastRow) : ℚ :=
  rows.foldl (fun a r => if r.balance < a then r.balance else a) r0.balance

/-- `max` of the row balances. -/
def maxBalance (r0 : ForecastRow) (rows : List ForecastRow) : ℚ :=
  rows.foldl (fun a r => if a < r.balance then r.balance else a) r0.balance

/-- `get_forecast` (src/main.py 433-518) on one tenant: `current_balance` is
`companies[company_id].get("current_balance", 0)`, `grps` the tenant's group
list, `days` the horizon, `today` the value of `datetime.now().date()`. -/
def get_forecast (current_balance : ℚ) (grps : List Group) (days : Int)
    (today : Date) : ForecastOut :=
  if grps.isEmpty then .notReady
  else
    let rows := forecastRows grps today days current_balance
    match rows with
    | [] => .valueErrorCrash
    | r0 :: rest =>
      let lowRow := (firstRowWith rows (minBalance r0 rest)).getD r0
      let highRow := (firstRowWith rows (maxBalance r0 rest)).getD r0
      .ok rows
        { current_balance := current_balance,
          low_balance := lowRow.balance, low_date := lowRow.date,
          high_balance := highRow.balance, high_date := highRow.date }

/-! ### TrendAnalyzer (src/main.py 524-571) -/

/-- `p(y)` of the ISO week-count rule: weekday shift of 31 December. -/
def isoPy (y : Nat) : Nat := (y + y / 4 - y / 100 + y / 400) % 7

/-- How many ISO weeks year `y` has (52 or 53). -/
def isoWeeksInYear (y : Nat) : Nat :=
  if isoPy y = 4 ∨ isoPy (y - 1) = 3 then 53 else 52

/-- ISO weekday, Monday = 1 … Sunday = 7. -/
def isoWeekday (d : Date) : Nat := pyWeekday d.toDays + 1

/-- Day of year, 1-based. -/
def ordinalDay (d : Date) : Nat := d.toDays - (Date.toDays ⟨d.year, 1, 1⟩) + 1

/-- `date.isocalendar()[1]`: the ISO 8601 week number. -/
def isoWeek (d : Date) : Nat :=
  let w := (ordinalDay d + 10 - isoWeekday d) / 7
  if w < 1 then isoWeeksInYear (d.year - 1)
  else if isoWeeksInYear d.year < w then 1
  else w

/-- Insert into an ascending duplicate-free list; `sorted(weekly_totals
.keys())` is the ascending list of distinct week numbers. -/
def insertSortedDistinct (w : Nat) : List Nat → List Nat
  | [] => [w]
  | x :: t =>
    if w < x then w :: x :: t
    else if w = x then x :: t
    else x :: insertSortedDistinct w t

/-- The distinct ISO week numbers of the transactions, ascending
(src/main.py 533-542). -/
def trendWeeks (txns : List Transaction) : List Nat :=
  txns.foldl (fun acc t => insertSortedDistinct (isoWeek t.date) acc) []

/-- `weekly_totals[w]["credits"]` (src/main.py 535-540). -/
def weeklyCredits (txns : List Transaction) (w : Nat) : ℚ :=
  ((txns.filter (fun t => isoWeek t.date = w ∧ 0 < t.amount)).map
    (fun t => t.amount)).sum

/-- `weekly_totals[w]["debits"]` (src/main.py 535-540). -/
def weeklyDebits (txns : List Transaction) (w : Nat) : ℚ :=
  ((txns.filter (fun t => isoWeek t.date = w ∧ ¬ 0 < t.amount)).map
    (fun t => |t.amount|)).sum

/-- Sum of the first-half weekly credit totals (`weeks[:len(weeks)//2]`). -/
def firstHalfCredits (txns : List Transaction) : ℚ :=
  (((trendWeeks txns).take ((trendWeeks txns).length / 2)).map
    (weeklyCredits txns)).sum

/-- Sum of the second-half weekly credit totals (`weeks[len(weeks)//2:]`). -/
def secondHalfCredits (txns : List Transaction) : ℚ :=
  (((trendWeeks txns).drop ((trendWeeks txns).length / 2)).map
    (weeklyCredits txns)).sum

/-- First-half weekly debit totals. -/
def firstHalfDebits (txns : List Transaction) : ℚ :=
  (((trendWeeks txns).take ((trendWeeks txns).length / 2)).map
    (weeklyDebits txns)).sum

/-- Second-half weekly debit totals. -/
def secondHalfDebits (txns : List Transaction) : ℚ :=
  (((trendWeeks txns).drop ((trendWeeks txns).length / 2)).map
    (weeklyDebits txns)).sum

/-- The trend classification chain (src/main.py 552-563). -/
def trendLabel (firstHalf secondHalf : ℚ) : String :=
  if firstHalf * 1.1 < secondHalf then "increasing"
  else if secondHalf < firstHalf * 0.9 then "decreasing"
  else "stable"

/-- Result of `get_trends` (src/main.py 565-571). -/
structure TrendsOut where
  weekly_data : List (Nat × ℚ × ℚ)
  revenue : String
  expenses : String
deriving DecidableEq, Repr

/-- `get_trends` (src/main.py 524-571) on one tenant's transactions. -/
def get_trends (txns : List Transaction) : TrendsOut :=
  let weeks := trendWeeks txns
  let revenue :=
    if 4 ≤ weeks.length then
      trendLabel (firstHalfCredits txns) (secondHalfCredits txns)
    else "stable"
  let expenses :=
    if 4 ≤ weeks.length then
      trendLabel (firstHalfDebits txns) (secondHalfDebits txns)
    else "stable"
  { weekly_data := weeks.map (fun w => (w, weeklyCredits txns w, weeklyDebits txns w)),
    revenue := revenue,
    expenses := expenses }


/-! ### Concrete fixtures used by the claim theorems -/

/-- Build a transaction shaped the way the parser emits them. -/
def mkTx (i : Nat) (d : Date) (desc : String) (amt : ℚ) : Transaction :=
  ⟨i, d, desc, amt, if 0 < amt then "credit" else "debit", none, "unassigned"⟩

/-- A single stored group that is not confirmed. -/
def unconfirmedGroup : Group :=
  ⟨"grp_1", "G", "unassigned", "monthly", -100, 1, [1], false⟩

/-- Three same-day debits whose descriptions match no categorizer rule. -/
def mysteryTxns : List Transaction :=
  [mkTx 1 ⟨2026, 1, 10⟩ "MYSTERY A" (-42), mkTx 2 ⟨2026, 1, 10⟩ "MYSTERY B" (-48),
   mkTx 3 ⟨2026, 1, 10⟩ "MYSTERY C" (-100)]

/-- Two transactions both assigned to group "grp_1" (amounts 10 and 30,
mean 20). -/
def moveFixTxns : List Transaction :=
  [{ mkTx 1 ⟨2026, 1, 10⟩ "A" 10 with group_id := some "grp_1" },
   { mkTx 2 ⟨2026, 1, 10⟩ "B" 30 with group_id := some "grp_1" }]

/-- The two groups of the move fixture: "grp_1" holds both transactions
(avg 20), "grp_2" is empty. -/
def moveFixGroups : List Group :=
  [⟨"grp_1", "G1", "unassigned", "monthly", 20, 2, [1, 2], false⟩,
   ⟨"grp_2", "G2", "unassigned", "monthly", 0, 0, [], false⟩]

/-- Move both transactions to the existing group "grp_2". -/
def moveFixReq : MoveRequest := ⟨[1, 2], some "grp_2", none, none, none⟩

/-- "grp_2" as it stands after the fixture move. -/
def movedGroupB : Group := ⟨"grp_2", "G2", "unassigned", "monthly", 20, 2, [1, 2], false⟩

/-- A transaction sitting in group "grp_1". -/
def orphanTxn : Transaction :=
  ⟨1, ⟨2026, 1, 10⟩, "X", 10, "credit", some "grp_1", "unassigned"⟩

/-- The group holding `orphanTxn`. -/
def orphanGroup : Group := ⟨"grp_1", "G", "unassigned", "monthly", 10, 1, [1], false⟩

/-- A move request whose target group id matches no group of the tenant. -/
def orphanReq : MoveRequest := ⟨[1], some "grp_999", none, none, none⟩

/-- Two transactions two days apart (average gap exactly 2). -/
def dailyPairTxns : List Transaction :=
  [mkTx 1 ⟨2026, 1, 1⟩ "A" 1, mkTx 2 ⟨2026, 1, 3⟩ "B" 1]

/-- Four credits on four consecutive Mondays (ISO weeks 2-5 of 2026):
first-half credit sum 100, second-half credit sum 110 = 1.1 × 100. -/
def trendTxns : List Transaction :=
  [mkTx 1 ⟨2026, 1, 5⟩ "S1" 40, mkTx 2 ⟨2026, 1, 12⟩ "S2" 60,
   mkTx 3 ⟨2026, 1, 19⟩ "S3" 50, mkTx 4 ⟨2026, 1, 26⟩ "S4" 60]

/-- Two payroll deposits on the 1st and the 15th. -/
def payrollTxns : List Transaction :=
  [mkTx 1 ⟨2026, 1, 1⟩ "ACME PAYROLL" 5000, mkTx 2 ⟨2026, 1, 15⟩ "ACME PAYROLL" 5000]

/-- The group `auto_categorize_transactions` builds from `payrollTxns`. -/
def payrollGroup : Group :=
  ⟨"grp_1", "Payroll", "payroll", "semi-monthly", 5000, 2, [1, 2], false⟩

/-- The six labels `detect_frequency` can produce. -/
def detectableFrequencies : List String :=
  ["daily", "weekly", "semi-monthly", "monthly", "quarterly", "uncommon"]


/-! ### Claim C2 -/

/-- C2 is refuted: the raw input `"01/15/2026\nPAYROLL DEPOSIT   5000.00"`
yields no transaction at all, because the transaction line splits on runs of
two-or-more whitespace into only the two fields "PAYROLL DEPOSIT" and
"5000.00", and the parser requires at least three fields. -/
theorem c2_counterexample :
    (parse_bank_data ⟨2026, 2, 1⟩ "01/15/2026\nPAYROLL DEPOSIT   5000.00").transactions
      = [] := by decide

/-- C2 (amended): with a third field added to the line (a reference column),
the scenario behaves as claimed: parsing yields exactly one transaction with
id 1, date 2026-01-15, description "PAYROLL DEPOSIT", amount 5000.00, type
credit, and auto-categorization sets category_id "payroll" by the first rule
(no fallback bucketing); the original two-field line yields no transaction. -/
theorem c2_amended :
    (parse_bank_data ⟨2026, 2, 1⟩
        "01/15/2026\nPAYROLL DEPOSIT   REF123   5000.00").transactions =
      [⟨1, ⟨2026, 1, 15⟩, "PAYROLL DEPOSIT", 5000, "credit", none, "unassigned"⟩] ∧
    auto_categorize_transactions
        (parse_bank_data ⟨2026, 2, 1⟩
          "01/15/2026\nPAYROLL DEPOSIT   REF123   5000.00").transactions =
      ([⟨1, ⟨2026, 1, 15⟩, "PAYROLL DEPOSIT", 5000, "credit", none, "payroll"⟩], []) := by
  decide

/-! ### Claim C4 -/

/-- C4 is refuted: on the three unmatched same-day debits -42, -48, -100 no
fallback group of size 2 with average -45 exists (no group is formed at
all), because 48 rounds to 50, not to 40. -/
theorem c4_counterexample :
    ¬ ∃ g ∈ (auto_categorize_transactions mysteryTxns).2,
        g.transaction_ids.length = 2 ∧ g.avg_amount = -45 := by decide

/-- C4 (amended): `round(abs(amount), -1)` sends 42 to 40 but 48 to 50, so
the debits of -42.00 and -48.00 land in different amount/type buckets; all
three buckets (40, 50 and 100) are singletons and are discarded, no fallback
group is formed, and every transaction keeps `group_id` null. -/
theorem c4_amended :
    pyRound10 |(-42 : ℚ)| = 40 ∧ pyRound10 |(-48 : ℚ)| = 50 ∧
    pyRound10 |(-100 : ℚ)| = 100 ∧
    (auto_categorize_transactions mysteryTxns).2 = [] ∧
    (auto_categorize_transactions mysteryTxns).1.map (fun t => t.group_id) =
      [none, none, none] := by decide

/-! ### Claim C5 -/

/-- C5 (code bug): a "MAR 13, 2026" header line matches the month-name date
pattern and never becomes a transaction, but the date context is NOT updated:
the month-name parse only runs when the line contains "JAN" or "FEB", so the
strptime fallback fails, the exception is swallowed, and the following
transaction keeps the pre-existing date (here `today` = 2026-01-01) instead
of 2026-03-13.  An otherwise identical "JAN 13, 2026" header does update the
context, showing the asymmetry. -/
theorem c5_code_bug_eval :
    (parse_bank_data ⟨2026, 1, 1⟩
        "MAR 13, 2026\nWIDGET SERVICE   REF1   200.00").transactions =
      [⟨1, ⟨2026, 1, 1⟩, "WIDGET SERVICE", 200, "credit", none, "unassigned"⟩] ∧
    (parse_bank_data ⟨2026, 1, 1⟩
        "JAN 13, 2026\nWIDGET SERVICE   REF1   200.00").transactions =
      [⟨1, ⟨2026, 1, 13⟩, "WIDGET SERVICE", 200, "credit", none, "unassigned"⟩] ∧
    tryDatePatterns (pyStrip "MAR 13, 2026".data) =
      some ("MAR".data, "13".data, "2026".data) := by decide

/-! ### Claim C6 -/

/-- C6 (code bug): moving transaction 1 to the nonexistent target group
"grp_999" raises nothing and is reported as success: the transaction is
silently repointed at "grp_999" (which matches no group of the tenant), the
old group is emptied, and `moved = 1` is returned. -/
theorem c6_code_bug_eval :
    move_transactions [orphanTxn] [orphanGroup] orphanReq =
      ⟨[⟨1, ⟨2026, 1, 10⟩, "X", 10, "credit", some "grp_999", "unassigned"⟩],
       [⟨"grp_1", "G", "unassigned", "monthly", 10, 0, [], false⟩], 1⟩ ∧
    (∀ g ∈ [orphanGroup], g.id ≠ "grp_999") := by decide

/-! ### Claim C9 -/

/-- C9 (code bug): with a non-empty group list and horizon `days = 0` (or any
`days < 1`) the forecast performs no validation: `range(days)` is empty, so
`min`/`max` over the empty balance list raises an uncontrolled `ValueError`
instead of an explicit error result. -/
theorem c9_code_bug_eval :
    get_forecast 0 [unconfirmedGroup] 0 ⟨2026, 1, 15⟩ =
      ForecastOut.valueErrorCrash ∧
    get_forecast 0 [unconfirmedGroup] (-3) ⟨2026, 1, 15⟩ =
      ForecastOut.valueErrorCrash := by decide

/-! ### Claim C1 -/

/-- C1 is refuted: a tenant whose group list is non-empty but contains no
confirmed group does NOT get the "not ready" result: the empty-list check at
src/main.py 439 passes and the day-by-day simulation runs. -/
theorem c1_counterexample :
    unconfirmedGroup.confirmed = false ∧
    ([unconfirmedGroup] : List Group) ≠ [] ∧
    get_forecast 0 [unconfirmedGroup] 5 ⟨2026, 1, 15⟩ ≠ ForecastOut.notReady := by
  decide


theorem pyRound2_zero : pyRound2 0 = 0 := by decide

theorem dayFires_of_unconfirmed (grps : List Group) (z : Nat)
    (h : ∀ g ∈ grps, g.confirmed = false) : dayFires grps z = [] := by
  unfold dayFires
  rw [List.filterMap_eq_nil_iff]
  intro g hg
  have hg' : ¬ (g.confirmed = true) := by simp [h g hg]
  rw [if_neg hg']

theorem forecastRowsAux_length (grps : List Group) (today : Date) (k off : Nat)
    (bal : ℚ) : (forecastRowsAux grps today k off bal).length = k := by
  induction k generalizing off bal with
  | zero => rfl
  | succ n ih => simp [forecastRowsAux, ih]

theorem forecastRowsAux_all_zero (grps : List Group) (today : Date)
    (h : ∀ g ∈ grps, g.confirmed = false) (k off : Nat) (bal : ℚ) :
    ∀ r ∈ forecastRowsAux grps today k off bal,
      r.credits = 0 ∧ r.debits = 0 ∧ r.transactions = [] := by
  induction k generalizing off bal with
  | zero => intro r hr; simp [forecastRowsAux] at hr
  | succ n ih =>
    intro r hr
    rw [forecastRowsAux] at hr
    rcases List.mem_cons.1 hr with h1 | h2
    · subst h1
      have hf := dayFires_of_unconfirmed grps (today.toDays + off) h
      simp [hf, firesCredits, firesDebits, pyRound2_zero]
    · exact ih _ _ r h2

theorem get_forecast_ok (bal : ℚ) (grps : List Group) (days : ℤ) (today : Date)
    (hne : grps ≠ []) (r0 : ForecastRow) (rest : List ForecastRow)
    (hrows : forecastRows grps today days bal = r0 :: rest) :
    get_forecast bal grps days today =
      ForecastOut.ok (r0 :: rest)
        { current_balance := bal,
          low_balance := ((firstRowWith (r0 :: rest) (minBalance r0 rest)).getD r0).balance,
          low_date := ((firstRowWith (r0 :: rest) (minBalance r0 rest)).getD r0).date,
          high_balance := ((firstRowWith (r0 :: rest) (maxBalance r0 rest)).getD r0).balance,
          high_date := ((firstRowWith (r0 :: rest) (maxBalance r0 rest)).getD r0).date } := by
  unfold get_forecast
  rw [if_neg (by simpa [List.isEmpty_iff] using hne), hrows]

/-- C1 (amended): the recoverable "not ready" result is returned exactly when
the tenant's stored group list is empty; when the list is non-empty but no
group is confirmed, the forecast does NOT return "not ready" — the
day-by-day simulation runs (for any positive horizon) and every simulated
day has zero credits, zero debits and no firing groups. -/
theorem c1_amended (bal : ℚ) (grps : List Group) (days : ℤ) (today : Date) :
    (grps = [] → get_forecast bal grps days today = ForecastOut.notReady) ∧
    (grps ≠ [] → (∀ g ∈ grps, g.confirmed = false) → 1 ≤ days →
      ∃ rows s, get_forecast bal grps days today = ForecastOut.ok rows s ∧
        rows ≠ [] ∧
        ∀ r ∈ rows, r.credits = 0 ∧ r.debits = 0 ∧ r.transactions = []) := by
  constructor
  · intro h; subst h; rfl
  · intro hne hunc hdays
    have hlen : (forecastRows grps today days bal).length = days.toNat :=
      forecastRowsAux_length grps today days.toNat 0 bal
    cases hrows : forecastRows grps today days bal with
    | nil =>
      exfalso
      rw [hrows] at hlen
      simp only [List.length_nil] at hlen
      omega
    | cons r0 rest =>
      refine ⟨r0 :: rest, _,
        get_forecast_ok bal grps days today hne r0 rest hrows, by simp, ?_⟩
      intro r hr
      have hall := forecastRowsAux_all_zero grps today hunc days.toNat 0 bal
      rw [show forecastRowsAux grps today days.toNat 0 bal =
            forecastRows grps today days bal from rfl, hrows] at hall
      exact hall r hr

/-- Concrete instance of the amended C1: one unconfirmed group, horizon 5,
starting balance 0. -/
theorem c1_amended_witness :
    ∃ rows s, get_forecast 0 [unconfirmedGroup] 5 ⟨2026, 1, 15⟩ =
        ForecastOut.ok rows s ∧ rows ≠ [] ∧
        ∀ r ∈ rows, r.credits = 0 ∧ r.debits = 0 ∧ r.transactions = [] :=
  (c1_amended 0 [unconfirmedGroup] 5 ⟨2026, 1, 15⟩).2 (by decide) (by decide)
    (by decide)


theorem recalcOne_id (ts : List Transaction) (g : Group) :
    (recalcOne ts g).id = g.id := by
  unfold recalcOne
  split <;> rfl

theorem recalcGroups_avg (ts : List Transaction) (gs : List Group) (g : Group)
    (hg : g ∈ recalcGroups ts gs)
    (hne : ts.filter (fun t => t.group_id = some g.id) ≠ []) :
    g.avg_amount = meanAmounts (ts.filter (fun t => t.group_id = some g.id)) := by
  rcases List.mem_map.1 hg with ⟨g0, hg0, rfl⟩
  rw [recalcOne_id] at hne ⊢
  unfold recalcOne
  split
  · next hemp =>
    rw [List.isEmpty_iff] at hemp
    exact absurd hemp hne
  · rfl

/-! ### Claim C3 -/

/-- C3 is refuted: after moving both members of "grp_1" to "grp_2", the group
"grp_1" has no transaction assigned to it and an empty `transaction_ids`
list, yet its `avg_amount` is still 20, the mean of its former members — the
recalculation pass skips groups whose membership the move emptied, so the
universal "each group's avg_amount equals the mean of its current members"
fails (the mean over zero members, read as ℚ division by zero, is 0 ≠ 20). -/
theorem c3_counterexample :
    (move_transactions moveFixTxns moveFixGroups moveFixReq).groups.head? =
      some ⟨"grp_1", "G1", "unassigned", "monthly", 20, 0, [], false⟩ ∧
    (move_transactions moveFixTxns moveFixGroups moveFixReq).transactions.filter
        (fun t => t.group_id = some "grp_1") = [] ∧
    ¬ (∀ g ∈ (move_transactions moveFixTxns moveFixGroups moveFixReq).groups,
        g.avg_amount =
          meanAmounts
            ((move_transactions moveFixTxns moveFixGroups moveFixReq).transactions.filter
              (fun t => t.group_id = some g.id))) := by decide

/-- C3 (amended): immediately after every move-transactions operation, every
group that still has at least one transaction assigned to it carries exactly
the arithmetic mean of its current members' signed amounts; a group the move
emptied is left with its previous (stale) `avg_amount`. -/
theorem c3_amended (txns : List Transaction) (grps : List Group)
    (req : MoveRequest) (g : Group)
    (hg : g ∈ (move_transactions txns grps req).groups)
    (hne : (move_transactions txns grps req).transactions.filter
        (fun t => t.group_id = some g.id) ≠ []) :
    g.avg_amount =
      meanAmounts ((move_transactions txns grps req).transactions.filter
        (fun t => t.group_id = some g.id)) :=
  recalcGroups_avg _ _ g hg hne

/-- Concrete instance of the amended C3: after the fixture move, "grp_2"
holds transactions 1 and 2 and carries their exact mean 20. -/
theorem c3_amended_witness :
    movedGroupB ∈ (move_transactions moveFixTxns moveFixGroups moveFixReq).groups ∧
    (move_transactions moveFixTxns moveFixGroups moveFixReq).transactions.filter
        (fun t => t.group_id = some movedGroupB.id) ≠ [] ∧
    movedGroupB.avg_amount =
      meanAmounts
        ((move_transactions moveFixTxns moveFixGroups moveFixReq).transactions.filter
          (fun t => t.group_id = some movedGroupB.id)) :=
  ⟨by decide, by decide,
   c3_amended moveFixTxns moveFixGroups moveFixReq movedGroupB (by decide) (by decide)⟩


/-! ### Claim C7 -/

/-- C7: `detect_frequency` maps the average consecutive-day gap to its bucket
with inclusive upper bounds — averages of exactly 2, 3, 8, 9, 17, 18, 35,
36, 100, 101 days yield daily, weekly, weekly, semi-monthly, semi-monthly,
monthly, monthly, quarterly, quarterly, uncommon respectively — and a
single-date input yields "uncommon". -/
theorem c7_frequency_boundaries (txns : List Transaction) :
    (txns.length = 1 → detect_frequency txns = "uncommon") ∧
    (2 ≤ txns.length →
      (avg_gap txns = 2 → detect_frequency txns = "daily") ∧
      (avg_gap txns = 3 → detect_frequency txns = "weekly") ∧
      (avg_gap txns = 8 → detect_frequency txns = "weekly") ∧
      (avg_gap txns = 9 → detect_frequency txns = "semi-monthly") ∧
      (avg_gap txns = 17 → detect_frequency txns = "semi-monthly") ∧
      (avg_gap txns = 18 → detect_frequency txns = "monthly") ∧
      (avg_gap txns = 35 → detect_frequency txns = "monthly") ∧
      (avg_gap txns = 36 → detect_frequency txns = "quarterly") ∧
      (avg_gap txns = 100 → detect_frequency txns = "quarterly") ∧
      (avg_gap txns = 101 → detect_frequency txns = "uncommon")) := by
  constructor
  · intro h1
    have hlt : txns.length < 2 := by omega
    simp [detect_frequency, hlt]
  · intro h2
    have hlt : ¬ txns.length < 2 := by omega
    simp only [detect_frequency, if_neg hlt]
    exact ⟨fun h => by rw [h]; decide, fun h => by rw [h]; decide,
      fun h => by rw [h]; decide, fun h => by rw [h]; decide,
      fun h => by rw [h]; decide, fun h => by rw [h]; decide,
      fun h => by rw [h]; decide, fun h => by rw [h]; decide,
      fun h => by rw [h]; decide, fun h => by rw [h]; decide⟩

/-- Concrete instance of C7: two dates two days apart average to a gap of
exactly 2 and classify as "daily". -/
theorem c7_frequency_boundaries_witness :
    2 ≤ dailyPairTxns.length ∧ avg_gap dailyPairTxns = 2 ∧
    detect_frequency dailyPairTxns = "daily" :=
  ⟨by decide, by decide,
   ((c7_frequency_boundaries dailyPairTxns).2 (by decide)).1 (by decide)⟩


theorem weeklyCredits_nonneg (txns : List Transaction) (w : Nat) :
    0 ≤ weeklyCredits txns w := by
  apply List.sum_nonneg
  intro x hx
  rcases List.mem_map.1 hx with ⟨t, ht, rfl⟩
  have hp := (List.mem_filter.1 ht).2
  simp only [decide_eq_true_eq] at hp
  exact le_of_lt hp.2

theorem weeklyDebits_nonneg (txns : List Transaction) (w : Nat) :
    0 ≤ weeklyDebits txns w := by
  apply List.sum_nonneg
  intro x hx
  rcases List.mem_map.1 hx with ⟨t, ht, rfl⟩
  exact abs_nonneg t.amount

theorem firstHalfCredits_nonneg (txns : List Transaction) :
    0 ≤ firstHalfCredits txns := by
  apply List.sum_nonneg
  intro x hx
  rcases List.mem_map.1 hx with ⟨w, hw, rfl⟩
  exact weeklyCredits_nonneg txns w

theorem firstHalfDebits_nonneg (txns : List Transaction) :
    0 ≤ firstHalfDebits txns := by
  apply List.sum_nonneg
  intro x hx
  rcases List.mem_map.1 hx with ⟨w, hw, rfl⟩
  exact weeklyDebits_nonneg txns w

theorem trendLabel_eq_increasing (F S : ℚ) :
    trendLabel F S = "increasing" ↔ F * 1.1 < S := by
  unfold trendLabel
  split
  · next h => simp [h]
  · next h =>
    split
    · next h2 =>
      constructor
      · intro hx; exact absurd hx (by decide)
      · intro hx; exact absurd hx h
    · next h2 =>
      constructor
      · intro hx; exact absurd hx (by decide)
      · intro hx; exact absurd hx h

theorem trendLabel_eq_decreasing (F S : ℚ) (hF : 0 ≤ F) :
    trendLabel F S = "decreasing" ↔ S < F * 0.9 := by
  unfold trendLabel
  split
  · next h =>
    constructor
    · intro hx; exact absurd hx (by decide)
    · intro hx; nlinarith
  · next h =>
    split
    · next h2 => simp [h2]
    · next h2 =>
      constructor
      · intro hx; exact absurd hx (by decide)
      · intro hx; exact absurd hx h2

theorem trendLabel_stable_hi (F S : ℚ) (hF : 0 ≤ F) (h : S = F * 1.1) :
    trendLabel F S = "stable" := by
  have h1 : ¬ (F * 1.1 < S) := by rw [h]; exact lt_irrefl _
  have h2 : ¬ (S < F * 0.9) := by rw [h]; intro hx; nlinarith
  unfold trendLabel
  rw [if_neg h1, if_neg h2]

theorem trendLabel_stable_lo (F S : ℚ) (hF : 0 ≤ F) (h : S = F * 0.9) :
    trendLabel F S = "stable" := by
  have h1 : ¬ (F * 1.1 < S) := by rw [h]; intro hx; nlinarith
  have h2 : ¬ (S < F * 0.9) := by rw [h]; exact lt_irrefl _
  unfold trendLabel
  rw [if_neg h1, if_neg h2]

/-! ### Claim C8 -/

/-- C8: over at least four distinct ISO weeks, the revenue trend is
"increasing" exactly when the second-half credit sum strictly exceeds 1.1
times the first-half sum and "decreasing" exactly when it is strictly below
0.9 times it; a second-half sum of exactly 1.1× (or exactly 0.9×) the
first-half sum classifies as "stable"; the identical rule holds for the
debit sums and the expense trend. -/
theorem c8_trend_boundaries (txns : List Transaction)
    (h4 : 4 ≤ (trendWeeks txns).length) :
    ((get_trends txns).revenue = "increasing" ↔
      firstHalfCredits txns * 1.1 < secondHalfCredits txns) ∧
    ((get_trends txns).revenue = "decreasing" ↔
      secondHalfCredits txns < firstHalfCredits txns * 0.9) ∧
    (secondHalfCredits txns = firstHalfCredits txns * 1.1 →
      (get_trends txns).revenue = "stable") ∧
    (secondHalfCredits txns = firstHalfCredits txns * 0.9 →
      (get_trends txns).revenue = "stable") ∧
    ((get_trends txns).expenses = "increasing" ↔
      firstHalfDebits txns * 1.1 < secondHalfDebits txns) ∧
    ((get_trends txns).expenses = "decreasing" ↔
      secondHalfDebits txns < firstHalfDebits txns * 0.9) ∧
    (secondHalfDebits txns = firstHalfDebits txns * 1.1 →
      (get_trends txns).expenses = "stable") ∧
    (secondHalfDebits txns = firstHalfDebits txns * 0.9 →
      (get_trends txns).expenses = "stable") := by
  have hrev : (get_trends txns).revenue =
      trendLabel (firstHalfCredits txns) (secondHalfCredits txns) := by
    simp [get_trends, if_pos h4]
  have hexp : (get_trends txns).expenses =
      trendLabel (firstHalfDebits txns) (secondHalfDebits txns) := by
    simp [get_trends, if_pos h4]
  rw [hrev, hexp]
  refine ⟨trendLabel_eq_increasing _ _,
    trendLabel_eq_decreasing _ _ (firstHalfCredits_nonneg txns),
    trendLabel_stable_hi _ _ (firstHalfCredits_nonneg txns),
    trendLabel_stable_lo _ _ (firstHalfCredits_nonneg txns),
    trendLabel_eq_increasing _ _,
    trendLabel_eq_decreasing _ _ (firstHalfDebits_nonneg txns),
    trendLabel_stable_hi _ _ (firstHalfDebits_nonneg txns),
    trendLabel_stable_lo _ _ (firstHalfDebits_nonneg txns)⟩

/-- Concrete instance of C8: four weeks of credits with second-half sum
exactly 1.1 × the first-half sum classify as "stable". -/
theorem c8_trend_boundaries_witness :
    4 ≤ (trendWeeks trendTxns).length ∧
    secondHalfCredits trendTxns = firstHalfCredits trendTxns * 1.1 ∧
    (get_trends trendTxns).revenue = "stable" :=
  ⟨by decide, by decide,
   (c8_trend_boundaries trendTxns (by decide)).2.2.1 (by decide)⟩


theorem freqBucket_mem (a : ℚ) : freqBucket a ∈ detectableFrequencies := by
  unfold freqBucket detectableFrequencies
  split_ifs <;> simp

theorem detect_frequency_mem (txns : List Transaction) :
    detect_frequency txns ∈ detectableFrequencies := by
  unfold detect_frequency
  split
  · simp [detectableFrequencies]
  · exact freqBucket_mem _

theorem mkGroups_frequency (bs : List (BucketKey × List Transaction))
    (acc : List Group) (g : Group) (hg : g ∈ mkGroups bs acc) :
    g ∈ acc ∨ ∃ ts, g.frequency = detect_frequency ts := by
  induction bs generalizing acc with
  | nil => exact Or.inl hg
  | cons b rest ih =>
    obtain ⟨k, ts⟩ := b
    simp only [mkGroups] at hg
    split at hg
    · rcases ih _ hg with hacc | hex
      · rcases List.mem_append.1 hacc with h | h
        · exact Or.inl h
        · refine Or.inr ⟨ts, ?_⟩
          rw [List.mem_singleton.1 h]
      · exact Or.inr hex
    · exact ih _ hg

/-! ### Claim C10 -/

/-- C10: `detect_frequency` only ever returns one of the six labels daily,
weekly, semi-monthly, monthly, quarterly, uncommon — never "varies" — and
consequently every group `auto_categorize_transactions` creates has a
frequency other than "varies", even though "varies" is one of the
`FREQUENCY_OPTIONS`. -/
theorem c10_no_varies (txns : List Transaction) :
    detect_frequency txns ∈ detectableFrequencies ∧
    "varies" ∈ FREQUENCY_OPTIONS.map (fun f => f.id) ∧
    ∀ g ∈ (auto_categorize_transactions txns).2, g.frequency ≠ "varies" := by
  refine ⟨detect_frequency_mem txns, by decide, ?_⟩
  intro g hg hvaries
  rcases mkGroups_frequency _ _ g hg with h | ⟨ts, hts⟩
  · simp at h
  · have hmem := detect_frequency_mem ts
    rw [← hts, hvaries] at hmem
    exact absurd hmem (by decide)

/-- Concrete instance of C10: the group built from two payroll deposits has
frequency "semi-monthly", not "varies". -/
theorem c10_no_varies_witness :
    detect_frequency payrollTxns ∈ detectableFrequencies ∧
    payrollGroup.frequency ≠ "varies" :=
  ⟨(c10_no_varies payrollTxns).1,
   (c10_no_varies payrollTxns).2.2 payrollGroup (by decide)⟩

end Cashflow
